import Mathlib

/-!
Verification development for the RouteGuard Auto Suite core
(`routeguard_core.py`): a VPN kill-switch that compiles nftables rules
from a WireGuard-derived configuration, watches the routing tables for
split-default-route leaks, and runs a lifecycle loop with guaranteed
teardown.

The Python module is shallowly embedded here:
pure functions (`build_nft_script`, `suspicious_routes`, endpoint
construction) become Lean functions over the same data; the effectful
parts (nft / wg-quick / state-file interaction in `RouteGuardRunner.run`)
become explicit state passing over a small `Sys` record plus an event
trace, with external nondeterminism (command availability, command
failures, route-table contents, the stop flag) supplied by an oracle
record.
-/

/-! ## Module-level constants (`routeguard_core.py`, lines 23-29) -/

def ROUTEGUARD_TABLE_FAMILY : String := "inet"

def ROUTEGUARD_TABLE_NAME : String := "routeguard"

def DEFAULT_INTERVAL : Nat := 5

def PRIVATE_V4_CIDRS : List String := ["10.0.0.0/8", "172.16.0.0/12", "192.168.0.0/16"]

def PRIVATE_V6_CIDR : String := "fc00::/7"

def LINK_LOCAL_V6 : List String := ["fe80::/10", "ff00::/8"]

/-! ## Data model (`EndpointRule`, `GeneratedConfig`) -/

structure EndpointRule where
  ip : String
  port : Nat
  proto : String := "udp"
deriving DecidableEq, Repr

structure GeneratedConfig where
  mode : String
  vpn_iface : String
  poll_interval_sec : Nat := DEFAULT_INTERVAL
  allow_lan : Bool := true
  allow_dhcp : Bool := true
  vpn_endpoints : Option (List EndpointRule) := none
deriving DecidableEq, Repr

/-- Shape of `GeneratedConfig.to_dict()`'s result: `asdict(self)` with the
`vpn_endpoints` entry replaced by a plain (possibly empty) list. -/
structure GeneratedConfigDict where
  mode : String
  vpn_iface : String
  poll_interval_sec : Nat
  allow_lan : Bool
  allow_dhcp : Bool
  vpn_endpoints : List EndpointRule
deriving DecidableEq, Repr

/-- `GeneratedConfig.to_dict` (lines 61-64): `d["vpn_endpoints"] =
[asdict(e) for e in (self.vpn_endpoints or [])]`. -/
def GeneratedConfig.to_dict (c : GeneratedConfig) : GeneratedConfigDict :=
  { mode := c.mode
    vpn_iface := c.vpn_iface
    poll_interval_sec := c.poll_interval_sec
    allow_lan := c.allow_lan
    allow_dhcp := c.allow_dhcp
    vpn_endpoints := c.vpn_endpoints.getD [] }

/-! ## RuleCompiler: `build_nft_script` (lines 179-199) -/

def quoteChar : Char := Char.ofNat 34

/-- `cfg.vpn_iface.replace('"', '')`: drop every double-quote character. -/
def stripQuotes (s : String) : String :=
  String.mk (s.data.filter (fun c => c != quoteChar))

/-- Endpoint accept line (lines 194-197): family chosen by literal syntax
(a colon in the address means IPv6), protocol lower-cased. -/
def endpoint_rule_line (ep : EndpointRule) : String :=
  let fam := if ep.ip.contains ':' then "ip6" else "ip"
  let proto := ep.proto.toLower
  "    " ++ fam ++ " daddr " ++ ep.ip ++ " " ++ proto ++ " dport " ++ toString ep.port ++ " accept"

/-- The list `lines` built by `build_nft_script` before joining, mirroring
the statement sequence of lines 182-198. -/
def build_nft_script_lines (cfg : GeneratedConfig) : List String :=
  let iface := stripQuotes cfg.vpn_iface
  let lines : List String := [
    "table " ++ ROUTEGUARD_TABLE_FAMILY ++ " " ++ ROUTEGUARD_TABLE_NAME ++ " \x7b",
    "  chain rg_output \x7b",
    "    type filter hook output priority filter; policy accept;",
    "    oifname \"lo\" accept",
    "    oifname \"" ++ iface ++ "\" accept",
    "    ip6 daddr \x7b " ++ String.intercalate ", " LINK_LOCAL_V6 ++ " \x7d accept"]
  let lines := if cfg.allow_dhcp then
    lines ++ ["    udp sport 68 udp dport 67 accept", "    udp sport 546 udp dport 547 accept"]
    else lines
  let lines := if cfg.allow_lan then
    lines ++ ["    ip daddr \x7b " ++ String.intercalate ", " PRIVATE_V4_CIDRS ++ " \x7d accept",
              "    ip6 daddr " ++ PRIVATE_V6_CIDR ++ " accept"]
    else lines
  let lines := lines ++ (cfg.vpn_endpoints.getD []).map endpoint_rule_line
  lines ++ ["    oifname != \"" ++ stripQuotes cfg.vpn_iface ++ "\" drop", "  \x7d", "\x7d"]

def build_nft_script (cfg : GeneratedConfig) : String :=
  String.intercalate "\n" (build_nft_script_lines cfg) ++ "\n"

/-! Named rule lines, for stating ordering properties of the compiler. -/

def table_line : String :=
  "table " ++ ROUTEGUARD_TABLE_FAMILY ++ " " ++ ROUTEGUARD_TABLE_NAME ++ " \x7b"

def chain_line : String := "  chain rg_output \x7b"

def policy_line : String := "    type filter hook output priority filter; policy accept;"

def loopback_rule : String := "    oifname \"lo\" accept"

def tunnel_rule (cfg : GeneratedConfig) : String :=
  "    oifname \"" ++ stripQuotes cfg.vpn_iface ++ "\" accept"

def linklocal_rule : String :=
  "    ip6 daddr \x7b " ++ String.intercalate ", " LINK_LOCAL_V6 ++ " \x7d accept"

def dhcp_rules : List String :=
  ["    udp sport 68 udp dport 67 accept", "    udp sport 546 udp dport 547 accept"]

def lan_rules : List String :=
  ["    ip daddr \x7b " ++ String.intercalate ", " PRIVATE_V4_CIDRS ++ " \x7d accept",
   "    ip6 daddr " ++ PRIVATE_V6_CIDR ++ " accept"]

def drop_rule (cfg : GeneratedConfig) : String :=
  "    oifname != \"" ++ stripQuotes cfg.vpn_iface ++ "\" drop"

def nft_closing : List String := ["  \x7d", "\x7d"]

def nft_head_lines (cfg : GeneratedConfig) : List String :=
  [table_line, chain_line, policy_line, loopback_rule, tunnel_rule cfg, linklocal_rule]

/-- The script lines decompose into the fixed prefix, the two optional
blocks, the per-endpoint accepts, and the final drop plus closing braces. -/
theorem build_nft_script_lines_decomp (cfg : GeneratedConfig) :
    build_nft_script_lines cfg =
      nft_head_lines cfg
      ++ (if cfg.allow_dhcp then dhcp_rules else [])
      ++ (if cfg.allow_lan then lan_rules else [])
      ++ (cfg.vpn_endpoints.getD []).map endpoint_rule_line
      ++ [drop_rule cfg] ++ nft_closing := by
  unfold build_nft_script_lines nft_head_lines table_line chain_line policy_line loopback_rule
    tunnel_rule linklocal_rule dhcp_rules lan_rules drop_rule nft_closing
  cases cfg.allow_dhcp <;> cases cfg.allow_lan <;> simp

/-! ## LeakDetector: `suspicious_routes` (lines 248-257) -/

/-- Route record as read from `ip -j route show` JSON: every field may be
absent (`r.get(...)`). -/
structure Route where
  dst : Option String := none
  dev : Option String := none
  oif : Option String := none
  gateway : Option String := none
deriving DecidableEq, Repr

/-- Python truthiness chain `r.get('dev') or r.get('oif') or ''`:
an absent or empty `dev` falls through to `oif`, then to `""`. -/
def routeEgress (r : Route) : String :=
  let d := r.dev.getD ""
  if d = "" then r.oif.getD "" else d

def split_default_targets (ipv6 : Bool) : List String :=
  if ipv6 then ["::/1", "8000::/1"] else ["0.0.0.0/1", "128.0.0.0/1"]

/-- Alert string format of line 256: destination, device, gateway. -/
def route_alert (r : Route) : String :=
  r.dst.getD "" ++ " via dev=" ++ routeEgress r ++ " gateway=" ++ r.gateway.getD "-"

/-- `suspicious_routes`: one alert per route whose `dst` is a split-default
target and whose egress device is set and differs from the VPN interface. -/
def suspicious_routes (routes : List Route) (vpn_iface : String) (ipv6 : Bool) : List String :=
  let targets := split_default_targets ipv6
  routes.filterMap (fun r =>
    let dev := routeEgress r
    match r.dst with
    | some dst =>
      if dst ∈ targets ∧ ¬ dev = "" ∧ ¬ dev = vpn_iface then
        some (dst ++ " via dev=" ++ dev ++ " gateway=" ++ r.gateway.getD "-")
      else none
    | none => none)

/-- Modelled from the spec (section 4.6): "the detector flags any route
whose destination exactly equals one of the split-default target prefixes
when the route's egress device is set and differs from the tunnel
interface". Used to compare the code's behaviour with the spec's words. -/
def leak_flag_spec (r : Route) (tunnelIface : String) (isV6 : Bool) : Bool :=
  decide (r.dst ∈ (split_default_targets isV6).map some)
    && !(routeEgress r == "") && !(routeEgress r == tunnelIface)

theorem suspicious_routes_eq_filter (routes : List Route) (iface : String) (v6 : Bool) :
    suspicious_routes routes iface v6 =
      (routes.filter (fun r => leak_flag_spec r iface v6)).map route_alert := by
  induction routes with
  | nil => rfl
  | cons r rest ih =>
    simp only [suspicious_routes, List.filterMap_cons] at *
    cases hdst : r.dst with
    | none =>
      have hflag : leak_flag_spec r iface v6 = false := by
        simp [leak_flag_spec, hdst]
      simp [hdst, hflag, List.filter_cons, ih]
    | some dst =>
      by_cases h1 : dst ∈ split_default_targets v6 <;>
        by_cases h2 : routeEgress r = "" <;>
          by_cases h3 : routeEgress r = iface <;>
            simp [hdst, h1, h2, h3, leak_flag_spec, List.filter_cons, route_alert, ih]

/-! ## Sorted alert sets

The monitor loop turns the scan output into a Python `set` and logs
`sorted(current - warned)`. A set of strings is embedded as a sorted,
duplicate-free list. -/

def toSortedSet (l : List String) : List String :=
  (List.insertionSort (· ≤ ·) l).dedup

theorem toSortedSet_nodup (l : List String) : (toSortedSet l).Nodup :=
  List.nodup_dedup _

theorem toSortedSet_sorted (l : List String) :
    (toSortedSet l).Sorted (· ≤ ·) :=
  List.Pairwise.sublist (List.dedup_sublist _) (List.sorted_insertionSort _ l)

theorem mem_toSortedSet {m : String} {l : List String} :
    m ∈ toSortedSet l ↔ m ∈ l := by
  rw [toSortedSet, List.mem_dedup, List.mem_insertionSort]

/-! ## EndpointResolver and PolicyModel construction
(`parse_endpoint` lines 118-130, `resolve_host_ips` lines 133-151,
`build_generated_config_from_wg` lines 154-172) -/

def natOfDigits (cs : List Char) : Nat :=
  cs.foldl (fun n c => n * 10 + (c.toNat - 48)) 0

/-- Whitespace strip of `endpoint.strip()`, expressed on character
lists. -/
def trimChars (cs : List Char) : List Char :=
  ((cs.dropWhile Char.isWhitespace).reverse.dropWhile Char.isWhitespace).reverse

/-- Match of the regex `^\[(.+)\]:(\d+)$` against a string already known to
start with `[`: a nonempty host between the leading `[` and a final `]:`
followed by a nonempty all-digit port that runs to the end of the string
(the greedy `.+` forces the digit group to be the maximal digit suffix). -/
def bracket_endpoint (cs : List Char) : Option (String × Nat) :=
  let digits := (cs.reverse.takeWhile Char.isDigit).reverse
  let rest := cs.take (cs.length - digits.length)
  if digits.isEmpty then none
  else
    match rest.reverse with
    | ':' :: ']' :: revMid =>
      match revMid.reverse with
      | '[' :: host => if host.isEmpty then none else some (String.mk host, natOfDigits digits)
      | _ => none
    | _ => none

/-- `parse_endpoint`: bracketed IPv6 literal form, or `host:port` with
exactly one colon and an all-digit port (`str.isdigit`, restricted here to
ASCII digits). Errors carry the messages of lines 123, 128, 130. -/
def parse_endpoint (endpoint : String) : Except String (String × Nat) :=
  let cs := trimChars endpoint.data
  let e := String.mk cs
  match cs with
  | '[' :: _ =>
    (match bracket_endpoint cs with
     | some hp => .ok hp
     | none => .error ("Invalid endpoint format: " ++ e))
  | _ =>
    if cs.count ':' = 1 then
      let host := String.mk (cs.takeWhile (fun c => c != ':'))
      let portStr := (cs.dropWhile (fun c => c != ':')).drop 1
      if !portStr.isEmpty && portStr.all Char.isDigit then
        .ok (host, natOfDigits portStr)
      else .error ("Invalid endpoint port: " ++ e)
    else .error ("Unsupported endpoint format: " ++ e)

/-- External name-resolution facts: whether `socket.inet_pton` accepts the
host as a literal (either family), and what `socket.getaddrinfo` returns
(`none` models `socket.gaierror`). -/
structure ResolveEnv where
  isLiteral : String → Bool
  dns : String → Option (List String)

/-- First-occurrence deduplication with an explicit already-seen prefix:
mirrors the `if ip not in ips: ips.append(ip)` loop of lines 144-148 and
the `seen` set of lines 159-169. -/
def firstDedupFrom {α : Type} [DecidableEq α] : List α → List α → List α
  | _, [] => []
  | seen, x :: rest =>
    if x ∈ seen then firstDedupFrom seen rest
    else x :: firstDedupFrom (seen ++ [x]) rest

def firstDedup {α : Type} [DecidableEq α] (l : List α) : List α :=
  firstDedupFrom [] l

/-- `resolve_host_ips`: a literal resolves to itself with no lookup;
otherwise the DNS answer is deduplicated preserving first-seen order, and
an empty result (or a lookup failure) is an error. -/
def resolve_host_ips (env : ResolveEnv) (host : String) : Except String (List String) :=
  if env.isLiteral host then .ok [host]
  else
    match env.dns host with
    | none => .error ("Cannot resolve endpoint host: " ++ host)
    | some infos =>
      let ips := firstDedup infos
      if ips.isEmpty then .error ("No IPs resolved for " ++ host) else .ok ips

abbrev EpKey := String × Nat × String

def epKey (e : EndpointRule) : EpKey := (e.ip, e.port, e.proto)

def keyRule (k : EpKey) : EndpointRule := ⟨k.1, k.2.1, k.2.2⟩

/-- Inner loop of lines 165-169: for each resolved ip, append a rule and
record its `(ip, port, 'udp')` key unless the key was already seen. -/
def addResolved : Nat → List String → List EndpointRule → List EpKey →
    List EndpointRule × List EpKey
  | _, [], eps, seen => (eps, seen)
  | port, ip :: rest, eps, seen =>
    if ((ip, port, "udp") : EpKey) ∈ seen then addResolved port rest eps seen
    else addResolved port rest (eps ++ [⟨ip, port, "udp"⟩]) (seen ++ [(ip, port, "udp")])

/-- Outer loop of lines 160-169 over the peers' `Endpoint` values
(`none` models a peer without the key; the empty string is also skipped by
`if not ep`). Parse or resolution errors abort the construction. -/
def buildEpsLoop (env : ResolveEnv) :
    List (Option String) → List EndpointRule → List EpKey → Except String (List EndpointRule)
  | [], eps, _ => .ok eps
  | p :: rest, eps, seen =>
    match p with
    | none => buildEpsLoop env rest eps seen
    | some ep =>
      if ep = "" then buildEpsLoop env rest eps seen
      else
        match parse_endpoint ep with
        | .error msg => .error msg
        | .ok (host, port) =>
          match resolve_host_ips env host with
          | .error msg => .error msg
          | .ok ips =>
            match addResolved port ips eps seen with
            | (eps2, seen2) => buildEpsLoop env rest eps2 seen2

/-- `build_generated_config_from_wg`, abstracted over the already-parsed
peers (each peer contributes its `Endpoint` value) and the resolver. -/
def build_generated_config_from_wg (env : ResolveEnv) (peers : List (Option String))
    (mode iface_name : String) (allow_lan allow_dhcp : Bool) (poll_interval_sec : Nat) :
    Except String GeneratedConfig :=
  match buildEpsLoop env peers [] [] with
  | .error msg => .error msg
  | .ok endpoints =>
    if endpoints.isEmpty then .error "No Peer Endpoint found in WireGuard config."
    else .ok { mode := mode, vpn_iface := iface_name,
               poll_interval_sec := max 1 poll_interval_sec,
               allow_lan := allow_lan, allow_dhcp := allow_dhcp,
               vpn_endpoints := some endpoints }

/-- Candidate `(ip, port, 'udp')` keys a single peer contributes, in
order, when its endpoint parses and resolves (and `[]` when the peer is
skipped); meaningful under `peerOk`. -/
def peerKeys (env : ResolveEnv) (p : Option String) : List EpKey :=
  match p with
  | none => []
  | some ep =>
    if ep = "" then []
    else
      match parse_endpoint ep with
      | .error _ => []
      | .ok (host, port) =>
        match resolve_host_ips env host with
        | .error _ => []
        | .ok ips => ips.map (fun ip => (ip, port, "udp"))

def exOk {α β : Type} : Except α β → Bool
  | .ok _ => true
  | .error _ => false

/-- A peer is unproblematic when it is skipped or its endpoint parses and
resolves without error. -/
def peerOk (env : ResolveEnv) (p : Option String) : Bool :=
  match p with
  | none => true
  | some ep =>
    (ep = "" : Bool) ||
      (match parse_endpoint ep with
       | .error _ => false
       | .ok (host, _) => exOk (resolve_host_ips env host))

/-! Properties of first-occurrence deduplication. -/

theorem firstDedupFrom_append {α : Type} [DecidableEq α] (a b seen : List α) :
    firstDedupFrom seen (a ++ b) =
      firstDedupFrom seen a ++ firstDedupFrom (seen ++ firstDedupFrom seen a) b := by
  induction a generalizing seen with
  | nil => simp [firstDedupFrom]
  | cons x xs ih =>
    by_cases hx : x ∈ seen
    · simp [firstDedupFrom, hx, ih]
    · simp [firstDedupFrom, hx, ih, List.append_assoc]

theorem mem_firstDedupFrom {α : Type} [DecidableEq α] {x : α} :
    ∀ {seen l : List α}, x ∈ firstDedupFrom seen l ↔ (x ∈ l ∧ x ∉ seen) := by
  intro seen l
  induction l generalizing seen with
  | nil => simp [firstDedupFrom]
  | cons y ys ih =>
    by_cases hy : y ∈ seen
    · rw [firstDedupFrom, if_pos hy, ih]
      constructor
      · rintro ⟨h1, h2⟩; exact ⟨List.mem_cons_of_mem _ h1, h2⟩
      · rintro ⟨h1, h2⟩
        rcases List.mem_cons.mp h1 with rfl | h1
        · exact absurd hy h2
        · exact ⟨h1, h2⟩
    · rw [firstDedupFrom, if_neg hy]
      simp only [List.mem_cons, ih, List.mem_append, List.mem_singleton]
      by_cases hxy : x = y
      · subst hxy; simp [hy]
      · simp only [hxy, false_or]; tauto

theorem firstDedupFrom_nodup {α : Type} [DecidableEq α] :
    ∀ (seen l : List α), (firstDedupFrom seen l).Nodup := by
  intro seen l
  induction l generalizing seen with
  | nil => exact List.nodup_nil
  | cons y ys ih =>
    by_cases hy : y ∈ seen
    · rw [firstDedupFrom, if_pos hy]; exact ih seen
    · rw [firstDedupFrom, if_neg hy]
      refine List.nodup_cons.mpr ⟨fun hc => ?_, ih _⟩
      exact (mem_firstDedupFrom.mp hc).2 (by simp)

theorem firstDedupFrom_length_le {α : Type} [DecidableEq α] :
    ∀ (seen l : List α), (firstDedupFrom seen l).length ≤ l.length := by
  intro seen l
  induction l generalizing seen with
  | nil => simp [firstDedupFrom]
  | cons y ys ih =>
    by_cases hy : y ∈ seen
    · rw [firstDedupFrom, if_pos hy]
      exact Nat.le_succ_of_le (ih seen)
    · rw [firstDedupFrom, if_neg hy]
      simpa using ih (seen ++ [y])

theorem firstDedup_eq_nil_iff {α : Type} [DecidableEq α] {l : List α} :
    firstDedup l = [] ↔ l = [] := by
  cases l with
  | nil => simp [firstDedup, firstDedupFrom]
  | cons x xs => simp [firstDedup, firstDedupFrom]

theorem epKey_keyRule (k : EpKey) : epKey (keyRule k) = k := rfl

theorem addResolved_spec :
    ∀ (ips : List String) (port : Nat) (eps : List EndpointRule) (seen : List EpKey),
    addResolved port ips eps seen =
      (eps ++ (firstDedupFrom seen (ips.map (fun ip => ((ip, port, "udp") : EpKey)))).map keyRule,
       seen ++ firstDedupFrom seen (ips.map (fun ip => ((ip, port, "udp") : EpKey)))) := by
  intro ips
  induction ips with
  | nil => intro port eps seen; simp [addResolved, firstDedupFrom]
  | cons ip rest ih =>
    intro port eps seen
    by_cases hk : ((ip, port, "udp") : EpKey) ∈ seen
    · simp only [addResolved, if_pos hk, List.map_cons, firstDedupFrom, ih]
    · simp only [addResolved, if_neg hk, List.map_cons, firstDedupFrom, ih]
      simp [List.append_assoc, keyRule]

theorem buildEpsLoop_spec (env : ResolveEnv) :
    ∀ (peers : List (Option String)) (eps : List EndpointRule) (seen : List EpKey),
    (∀ p ∈ peers, peerOk env p = true) →
    buildEpsLoop env peers eps seen =
      .ok (eps ++ (firstDedupFrom seen (peers.flatMap (peerKeys env))).map keyRule) := by
  intro peers
  induction peers with
  | nil => intro eps seen _; simp [buildEpsLoop, firstDedupFrom]
  | cons p rest ih =>
    intro eps seen h
    have hrest : ∀ q ∈ rest, peerOk env q = true :=
      fun q hq => h q (List.mem_cons_of_mem _ hq)
    have hp : peerOk env p = true := h p (List.mem_cons_self _ _)
    cases p with
    | none =>
      rw [List.flatMap_cons]
      simpa [buildEpsLoop, peerKeys] using ih eps seen hrest
    | some ep =>
      by_cases hep : ep = ""
      · subst hep
        rw [List.flatMap_cons]
        simpa [buildEpsLoop, peerKeys] using ih eps seen hrest
      · cases hparse : parse_endpoint ep with
        | error msg =>
          rw [peerOk, hparse] at hp
          simp [hep] at hp
        | ok hostPort =>
          obtain ⟨host, port⟩ := hostPort
          cases hres : resolve_host_ips env host with
          | error msg =>
            rw [peerOk, hparse] at hp
            simp [hep, hres, exOk] at hp
          | ok ips =>
            have hkeys : peerKeys env (some ep) = ips.map (fun ip => ((ip, port, "udp") : EpKey)) := by
              simp [peerKeys, hep, hparse, hres]
            rw [List.flatMap_cons, hkeys]
            simp only [buildEpsLoop, if_neg hep, hparse, hres, addResolved_spec]
            rw [ih _ _ hrest, firstDedupFrom_append]
            simp [List.append_assoc]

theorem peerKeys_proto (env : ResolveEnv) (p : Option String) :
    ∀ k ∈ peerKeys env p, k.2.2 = "udp" := by
  cases p with
  | none => simp [peerKeys]
  | some ep =>
    by_cases hep : ep = ""
    · simp [peerKeys, hep]
    · cases hparse : parse_endpoint ep with
      | error msg => simp [peerKeys, hep, hparse]
      | ok hp =>
        obtain ⟨host, port⟩ := hp
        cases hres : resolve_host_ips env host with
        | error msg => simp [peerKeys, hep, hparse, hres]
        | ok ips =>
          intro k hk
          simp only [peerKeys, if_neg hep, hparse, hres, List.mem_map] at hk
          obtain ⟨ip, _, rfl⟩ := hk
          rfl

/-! ## LifecycleRunner: `RouteGuardRunner` (lines 336-416)

The effectful run is embedded as explicit state passing over `Sys`
(presence of the nft binary, of the managed table, and of the RuntimeState
file) together with an event trace. External nondeterminism — the outcome
of `wg-quick up`, the interface wait, `nft -f`, external table tampering,
the route tables seen by each scan, when the stop flag is observed, and a
hypothetical fault injected into the teardown cleanup step (for example a
caller-supplied logger that raises) — is supplied by a `RunEnv` oracle.
Log lines other than the per-cycle leak alerts are not traced. -/

inductive Event where
  | wgUpCall
  | wgDownCall
  | nftApplyCall
  | nftRemoveCall
  | stateWriteCall
  | stateRemoveCall
  | alert (msg : String)
deriving DecidableEq, Repr

structure Sys where
  nftAvail : Bool
  tablePresent : Bool
  statePresent : Bool
deriving DecidableEq, Repr

structure RunEnv where
  wgUpFails : Bool
  ifaceAppears : Bool
  nftApplyFails : Bool
  tableMissingAt : Nat → Bool
  routes4 : Nat → List Route
  routes6 : Nat → List Route
  stopAfter : Nat
  removeNftRaises : Bool

structure RouteGuardRunner where
  cfg : GeneratedConfig
  auto_up_vpn : Bool := false
  auto_down_vpn_on_exit : Bool := false
  cleanup_nft_on_exit : Bool := true

/-- `routeguard_table_exists` (lines 202-203): false whenever the `nft`
binary is unavailable, otherwise reports the managed table's presence. -/
def routeguard_table_exists (s : Sys) : Bool :=
  s.nftAvail && s.tablePresent

/-- `remove_nft_rules` (lines 222-230): returns without touching anything
when `nft` is unavailable, otherwise deletes the managed table (the delete
of an absent table only changes the log message). Total: never throws. -/
def remove_nft_rules (s : Sys) : Sys × List Event :=
  if s.nftAvail then ({ s with tablePresent := false }, [Event.nftRemoveCall])
  else (s, [Event.nftRemoveCall])

/-- `apply_nft_rules` (lines 206-219): raises when `nft` is missing;
otherwise first removes any previous table, then submits the script
(`env.nftApplyFails` covers both a failed submission and a failed
post-apply verification) and on success the managed table exists. -/
def apply_nft_rules (env : RunEnv) (s : Sys) : Except String Unit × Sys × List Event :=
  if s.nftAvail then
    let s1 : Sys := { s with tablePresent := false }
    if env.nftApplyFails then
      (.error "nft failed to apply rules", s1, [Event.nftApplyCall, Event.nftRemoveCall])
    else (.ok (), { s1 with tablePresent := true }, [Event.nftApplyCall, Event.nftRemoveCall])
  else (.error "nft command not found. Install nftables.", s, [Event.nftApplyCall])

/-- One scan cycle (line 395): both address families scanned, the results
combined into a set — embedded as a sorted duplicate-free list, so that
`sorted(current - warned)` is a filter of it. -/
def scanCycle (env : RunEnv) (iface : String) (i : Nat) : List String :=
  toSortedSet (suspicious_routes (env.routes4 i) iface false
    ++ suspicious_routes (env.routes6 i) iface true)

/-- Start of a monitor-loop iteration (lines 392-394): external tampering
may have removed the table; in protect mode a missing table is re-applied
(and an apply failure propagates out of the loop). -/
def healStep (env : RunEnv) (mode : String) (i : Nat) (s : Sys) :
    Except String Unit × Sys × List Event :=
  let s0 := if env.tableMissingAt i then { s with tablePresent := false } else s
  if mode = "protect" && !(routeguard_table_exists s0) then apply_nft_rules env s0
  else (.ok (), s0, [])

/-- The `while not stop` loop of lines 391-402, with the number of
iterations before the stop flag is observed as fuel. Each iteration:
self-heal, scan both families, log one alert per entry of
`sorted(current - warned)`, replace `warned` by `current`. -/
def monitorLoop (env : RunEnv) (r : RouteGuardRunner) :
    Nat → Nat → List String → Sys → Except String Unit × Sys × List Event
  | 0, _, _, s => (.ok (), s, [])
  | fuel + 1, i, warned, s =>
    match healStep env r.cfg.mode i s with
    | (.error msg, s1, tr1) => (.error msg, s1, tr1)
    | (.ok _, s1, tr1) =>
      let current := scanCycle env r.cfg.vpn_iface i
      let fresh := current.filter (fun m => !(warned.contains m))
      match monitorLoop env r fuel (i + 1) current s1 with
      | (res, s2, tr2) => (res, s2, tr1 ++ fresh.map Event.alert ++ tr2)

/-- Persistence plus monitor loop (lines 388-404): `write_state`, then the
loop; a loop error propagates, normal exit returns 0. -/
def monitorPhase (env : RunEnv) (r : RouteGuardRunner) (s : Sys) (tr : List Event) :
    Except String Nat × Sys × List Event :=
  let s1 : Sys := { s with statePresent := true }
  match monitorLoop env r env.stopAfter 0 [] s1 with
  | (.error msg, s2, tr2) => (.error msg, s2, tr ++ [Event.stateWriteCall] ++ tr2)
  | (.ok _, s2, tr2) => (.ok 0, s2, tr ++ [Event.stateWriteCall] ++ tr2)

/-- The `try` body of `run` (lines 374-404): optional tunnel bring-up,
mode dispatch (`protect` waits for the interface then applies rules,
`monitor` goes straight to the loop, `off` removes rules and returns 0,
anything else raises), then persistence and the monitor loop. -/
def runBody (env : RunEnv) (r : RouteGuardRunner) (s : Sys) :
    Except String Nat × Sys × List Event :=
  let up : Except String Unit × List Event :=
    if r.auto_up_vpn then
      ((if env.wgUpFails then .error "wg-quick up failed" else .ok ()), [Event.wgUpCall])
    else (.ok (), [])
  match up with
  | (.error msg, upTr) => (.error msg, s, upTr)
  | (.ok _, upTr) =>
    if r.cfg.mode = "protect" then
      if !env.ifaceAppears then
        (.error ("VPN interface '" ++ r.cfg.vpn_iface ++ "' not found."), s, upTr)
      else
        match apply_nft_rules env s with
        | (.error msg, s1, tr1) => (.error msg, s1, upTr ++ tr1)
        | (.ok _, s1, tr1) => monitorPhase env r s1 (upTr ++ tr1)
    else if r.cfg.mode = "monitor" then
      monitorPhase env r s upTr
    else if r.cfg.mode = "off" then
      match remove_nft_rules s with
      | (s1, tr1) => (.ok 0, s1, upTr ++ tr1)
    else (.error ("Unknown mode: " ++ r.cfg.mode), s, upTr)

/-- The `finally` block of lines 405-415: nested try/finally guarantees
that even if the nft cleanup step raises (`env.removeNftRaises`, for
example from a caller-supplied logger), the tunnel-down step (whose own
failure is caught and only logged) and `remove_state` still run; an
exception escaping the cleanup step replaces the body's outcome. -/
def teardown (env : RunEnv) (r : RouteGuardRunner) (s : Sys) :
    Option String × Sys × List Event :=
  let step1 : Option String × Sys × List Event :=
    if r.cleanup_nft_on_exit && decide (r.cfg.mode = "protect") then
      if s.nftAvail then
        ((if env.removeNftRaises then some "cleanup step raised" else none),
         { s with tablePresent := false }, [Event.nftRemoveCall])
      else (none, s, [Event.nftRemoveCall])
    else (none, s, [])
  match step1 with
  | (e1, s1, t1) =>
    let down : List Event := if r.auto_down_vpn_on_exit then [Event.wgDownCall] else []
    (e1, { s1 with statePresent := false }, t1 ++ down ++ [Event.stateRemoveCall])

/-- `RouteGuardRunner.run` (lines 369-415): the body inside
`try ... finally teardown`. -/
def RouteGuardRunner.run (env : RunEnv) (r : RouteGuardRunner) (s : Sys) :
    Except String Nat × Sys × List Event :=
  match runBody env r s with
  | (bodyRes, s1, tr1) =>
    match teardown env r s1 with
    | (some msg, s2, tr2) => (.error msg, s2, tr1 ++ tr2)
    | (none, s2, tr2) => (bodyRes, s2, tr1 ++ tr2)

/-! ## Claim theorems -/

/-- C2: for every PolicyModel the compiled ruleset lists its rules in the
required order — loopback accept first, tunnel-interface accept second,
then the IPv6 link-local/multicast accept, then (only if allowDhcp) the
two DHCP accepts, then (only if allowLan) the private IPv4/IPv6 accepts,
then one accept per endpoint — and the catch-all drop is always the last
rule in the chain, for every allow-flag combination. -/
theorem C2_rule_compiler_order (cfg : GeneratedConfig) :
    build_nft_script_lines cfg =
      [table_line, chain_line, policy_line, loopback_rule, tunnel_rule cfg, linklocal_rule]
      ++ (if cfg.allow_dhcp then dhcp_rules else [])
      ++ (if cfg.allow_lan then lan_rules else [])
      ++ (cfg.vpn_endpoints.getD []).map endpoint_rule_line
      ++ [drop_rule cfg] ++ nft_closing ∧
    (build_nft_script_lines cfg).dropLast.dropLast.getLast? = some (drop_rule cfg) := by
  have hd := build_nft_script_lines_decomp cfg
  refine ⟨by rw [hd]; rfl, ?_⟩
  rw [hd]
  have hshape :
      nft_head_lines cfg ++ (if cfg.allow_dhcp then dhcp_rules else [])
        ++ (if cfg.allow_lan then lan_rules else [])
        ++ (cfg.vpn_endpoints.getD []).map endpoint_rule_line
        ++ [drop_rule cfg] ++ nft_closing =
      ((nft_head_lines cfg ++ (if cfg.allow_dhcp then dhcp_rules else [])
        ++ (if cfg.allow_lan then lan_rules else [])
        ++ (cfg.vpn_endpoints.getD []).map endpoint_rule_line
        ++ [drop_rule cfg] ++ ["  \x7d"]) ++ ["\x7d"]) := by
    simp [nft_closing]
  rw [hshape, List.dropLast_concat, List.dropLast_concat, List.append_assoc,
    List.getLast?_append, List.getLast?_concat]
  rfl

/-- Example route records used by the leak-detector claims. -/
def eth0_route : Route := { dst := some "0.0.0.0/1", dev := some "eth0" }

def wg0_route : Route := { dst := some "0.0.0.0/1", dev := some "wg0" }

/-- C4: the detector flags a route exactly when its destination equals a
split-default prefix of the scanned family and its egress device is set
and differs from the tunnel interface; in particular it flags
`{dst: 0.0.0.0/1, dev: eth0}` with tunnel `wg0`, does not flag the same
destination with `dev wg0`, and an empty route list yields no alert. -/
theorem C4_leak_detector_characterization :
    (∀ (routes : List Route) (iface : String) (v6 : Bool),
      suspicious_routes routes iface v6 =
        (routes.filter (fun r => leak_flag_spec r iface v6)).map route_alert) ∧
    suspicious_routes [eth0_route] "wg0" false = ["0.0.0.0/1 via dev=eth0 gateway=-"] ∧
    suspicious_routes [wg0_route] "wg0" false = [] ∧
    (∀ (iface : String) (v6 : Bool), suspicious_routes [] iface v6 = []) :=
  ⟨suspicious_routes_eq_filter, by decide, by decide, fun _ _ => rfl⟩

/-- C5 counterexample: the raw scan output of `suspicious_routes` is a
plain list in route-table order and can contain duplicate entries, so it
is not a set. -/
theorem C5_counterexample :
    ¬ (suspicious_routes [eth0_route, eth0_route] "wg0" false).Nodup := by
  decide

/-- C5 (amended): each alert string is formatted deterministically from
the route's destination, device and gateway, but `suspicious_routes`
returns them as a list in route-table order, possibly with duplicates;
the duplicate-free sorted alert set is only formed by the monitor loop,
whose per-cycle set construction (`scanCycle` via `toSortedSet`) is
duplicate-free, sorted, and membership-preserving. -/
theorem C5_alert_formatting :
    (∀ (routes : List Route) (iface : String) (v6 : Bool),
      suspicious_routes routes iface v6 =
        (routes.filter (fun r => leak_flag_spec r iface v6)).map route_alert) ∧
    (∀ l : List String, (toSortedSet l).Nodup ∧ (toSortedSet l).Sorted (· ≤ ·) ∧
      ∀ m, m ∈ toSortedSet l ↔ m ∈ l) ∧
    (∀ (env : RunEnv) (iface : String) (i : Nat),
      scanCycle env iface i =
        toSortedSet (suspicious_routes (env.routes4 i) iface false
          ++ suspicious_routes (env.routes6 i) iface true)) :=
  ⟨suspicious_routes_eq_filter,
   fun l => ⟨toSortedSet_nodup l, toSortedSet_sorted l, fun _ => mem_toSortedSet⟩,
   fun _ _ _ => rfl⟩

/-- C6: the rule compiler is a deterministic pure function of the
PolicyModel — equal configurations compile to byte-identical text. -/
theorem C6_compiler_deterministic (c1 c2 : GeneratedConfig) (h : c1 = c2) :
    build_nft_script c1 = build_nft_script c2 := by rw [h]

/-- Configuration of the spec's end-to-end example: one endpoint
`203.0.113.5:51820`, protect mode. -/
def sampleCfg : GeneratedConfig :=
  { mode := "protect", vpn_iface := "wg0",
    vpn_endpoints := some [{ ip := "203.0.113.5", port := 51820 }] }

theorem C6_compiler_deterministic_witness :
    build_nft_script sampleCfg = build_nft_script sampleCfg :=
  C6_compiler_deterministic sampleCfg sampleCfg rfl

/-- C9: `remove_nft_rules` is total (it never throws by construction), a
state no-op when the nft binary is unavailable; `routeguard_table_exists`
is false whenever the binary is unavailable; after a remove the table
never exists, whether the state was never applied or previously applied;
and double-remove is a no-op. -/
theorem C9_remove_exists_safety :
    (∀ s : Sys, s.nftAvail = false → (remove_nft_rules s).1 = s) ∧
    (∀ s : Sys, s.nftAvail = false → routeguard_table_exists s = false) ∧
    (∀ s : Sys, routeguard_table_exists (remove_nft_rules s).1 = false) ∧
    (∀ s : Sys, (remove_nft_rules (remove_nft_rules s).1).1 = (remove_nft_rules s).1) ∧
    (∀ (env : RunEnv) (s s1 : Sys) (tr : List Event),
      apply_nft_rules env s = (.ok (), s1, tr) →
      routeguard_table_exists (remove_nft_rules s1).1 = false) := by
  refine ⟨fun s h => by simp [remove_nft_rules, h],
          fun s h => by simp [routeguard_table_exists, h],
          fun s => ?_, fun s => ?_, fun env s s1 tr _ => ?_⟩
  · by_cases h : s.nftAvail = true <;>
      simp [remove_nft_rules, routeguard_table_exists, h]
  · by_cases h : s.nftAvail = true <;> simp [remove_nft_rules, h]
  · by_cases h : s1.nftAvail = true <;>
      simp [remove_nft_rules, routeguard_table_exists, h]

def sysNoNft : Sys := { nftAvail := false, tablePresent := true, statePresent := false }

def sysReady : Sys := { nftAvail := true, tablePresent := false, statePresent := false }

def sysApplied : Sys := { nftAvail := true, tablePresent := true, statePresent := false }

/-- Oracle describing a quiet environment: every external command
succeeds, route tables are empty, the stop flag is observed at once. -/
def quietEnv : RunEnv :=
  { wgUpFails := false, ifaceAppears := true, nftApplyFails := false,
    tableMissingAt := fun _ => false, routes4 := fun _ => [], routes6 := fun _ => [],
    stopAfter := 0, removeNftRaises := false }

theorem C9_remove_exists_safety_witness :
    (remove_nft_rules sysNoNft).1 = sysNoNft ∧
    routeguard_table_exists (remove_nft_rules sysApplied).1 = false :=
  ⟨C9_remove_exists_safety.1 sysNoNft rfl,
   C9_remove_exists_safety.2.2.2.2 quietEnv sysReady sysApplied
     [Event.nftApplyCall, Event.nftRemoveCall] rfl⟩

/-- GeneratedConfig built with the constructor's `vpn_endpoints` default
(`None`). -/
def no_endpoint_cfg (m iface : String) (poll : Nat) (lan dhcp : Bool) : GeneratedConfig :=
  { mode := m, vpn_iface := iface, poll_interval_sec := poll,
    allow_lan := lan, allow_dhcp := dhcp }

/-- C10: a GeneratedConfig with the endpoint list absent (the
constructor default) is a value every consumer is total over: the
compiler emits zero endpoint-accept rules but keeps the loopback and
tunnel accepts and the final drop, and serialization renders the absent
list as an empty list. -/
theorem C10_absent_endpoints_total (m iface : String) (poll : Nat) (lan dhcp : Bool) :
    (no_endpoint_cfg m iface poll lan dhcp).vpn_endpoints = none ∧
    (no_endpoint_cfg m iface poll lan dhcp).to_dict.vpn_endpoints = [] ∧
    build_nft_script_lines (no_endpoint_cfg m iface poll lan dhcp) =
      nft_head_lines (no_endpoint_cfg m iface poll lan dhcp)
      ++ (if dhcp then dhcp_rules else [])
      ++ (if lan then lan_rules else [])
      ++ [drop_rule (no_endpoint_cfg m iface poll lan dhcp)] ++ nft_closing ∧
    loopback_rule ∈ build_nft_script_lines (no_endpoint_cfg m iface poll lan dhcp) ∧
    tunnel_rule (no_endpoint_cfg m iface poll lan dhcp)
      ∈ build_nft_script_lines (no_endpoint_cfg m iface poll lan dhcp) ∧
    drop_rule (no_endpoint_cfg m iface poll lan dhcp)
      ∈ build_nft_script_lines (no_endpoint_cfg m iface poll lan dhcp) := by
  have hd := build_nft_script_lines_decomp (no_endpoint_cfg m iface poll lan dhcp)
  refine ⟨rfl, rfl, ?_, ?_, ?_, ?_⟩ <;> rw [hd] <;>
    simp [no_endpoint_cfg, nft_head_lines, nft_closing]

/-! Helper lemmas about the runner's effect model. -/

theorem remove_nft_trace (s : Sys) : (remove_nft_rules s).2 = [Event.nftRemoveCall] := by
  by_cases h : s.nftAvail = true <;> simp [remove_nft_rules, h]

theorem remove_nft_no_table (s : Sys) :
    routeguard_table_exists (remove_nft_rules s).1 = false := by
  by_cases h : s.nftAvail = true <;> simp [remove_nft_rules, routeguard_table_exists, h]

theorem teardown_spec (env : RunEnv) (r : RouteGuardRunner) (s : Sys) :
    (teardown env r s).2.1.statePresent = false ∧
    (teardown env r s).2.2 =
      (if r.cleanup_nft_on_exit && decide (r.cfg.mode = "protect")
        then [Event.nftRemoveCall] else [])
      ++ (if r.auto_down_vpn_on_exit then [Event.wgDownCall] else [])
      ++ [Event.stateRemoveCall] := by
  unfold teardown
  by_cases h1 : (r.cleanup_nft_on_exit && decide (r.cfg.mode = "protect")) = true <;>
    by_cases h2 : s.nftAvail = true <;>
      cases henv : env.removeNftRaises <;>
        simp [h1, h2, henv]

/-- C1: on every exit path of `run` — normal stop, signal-requested stop,
or an error raised in any earlier state (tunnel bring-up failure,
interface-wait timeout in protect mode, apply failure, unknown mode, or a
loop-time re-apply failure), and even when the nft cleanup step itself
raises — the trace ends with the three teardown steps in order (nft table
removal when cleanup was opted into and mode is protect, then tunnel down
when configured, then RuntimeState removal), and the RuntimeState file is
absent after `run` returns. -/
theorem C1_run_teardown (env : RunEnv) (r : RouteGuardRunner) (s : Sys) :
    (RouteGuardRunner.run env r s).2.1.statePresent = false ∧
    (RouteGuardRunner.run env r s).2.2 =
      (runBody env r s).2.2
      ++ ((if r.cleanup_nft_on_exit && decide (r.cfg.mode = "protect")
            then [Event.nftRemoveCall] else [])
        ++ (if r.auto_down_vpn_on_exit then [Event.wgDownCall] else [])
        ++ [Event.stateRemoveCall]) := by
  rcases hrb : runBody env r s with ⟨res, s1, tr1⟩
  have ht := teardown_spec env r s1
  rcases htd : teardown env r s1 with ⟨e1, s2, tr2⟩
  rw [htd] at ht
  unfold RouteGuardRunner.run
  simp only [hrb, htd]
  cases e1 <;> simp_all [List.append_assoc]

/-- C7 counterexample: an off-mode runner with tunnel bring-up enabled,
in an environment where `wg-quick up` fails, exits with an error and
leaves a pre-existing firewall table in place, refuting the unconditional
claim. -/
def offUpRunner : RouteGuardRunner :=
  { cfg := { mode := "off", vpn_iface := "wg0" }, auto_up_vpn := true }

def upFailEnv : RunEnv :=
  { wgUpFails := true, ifaceAppears := true, nftApplyFails := false,
    tableMissingAt := fun _ => false, routes4 := fun _ => [], routes6 := fun _ => [],
    stopAfter := 0, removeNftRaises := false }

theorem C7_counterexample :
    (RouteGuardRunner.run upFailEnv offUpRunner sysApplied).1 = .error "wg-quick up failed" ∧
    routeguard_table_exists (RouteGuardRunner.run upFailEnv offUpRunner sysApplied).2.1 = true :=
  ⟨rfl, rfl⟩

/-- C7 (amended): for every runner whose mode is `off` — provided the
optional tunnel bring-up step is disabled or succeeds — `run` never
invokes FirewallController.apply, removes any existing firewall state,
never writes RuntimeState (it skips the monitor loop), and returns
success (0) with the firewall table absent at termination. -/
theorem C7_off_mode (env : RunEnv) (r : RouteGuardRunner) (s : Sys)
    (hmode : r.cfg.mode = "off")
    (hup : r.auto_up_vpn = true → env.wgUpFails = false) :
    (RouteGuardRunner.run env r s).1 = .ok 0 ∧
    Event.nftApplyCall ∉ (RouteGuardRunner.run env r s).2.2 ∧
    Event.stateWriteCall ∉ (RouteGuardRunner.run env r s).2.2 ∧
    Event.nftRemoveCall ∈ (RouteGuardRunner.run env r s).2.2 ∧
    routeguard_table_exists (RouteGuardRunner.run env r s).2.1 = false ∧
    (RouteGuardRunner.run env r s).2.1.statePresent = false := by
  have hb : runBody env r s =
      (.ok 0, (remove_nft_rules s).1,
        (if r.auto_up_vpn then [Event.wgUpCall] else []) ++ (remove_nft_rules s).2) := by
    rcases hrm : remove_nft_rules s with ⟨s1, tr1⟩
    unfold runBody
    by_cases hau : r.auto_up_vpn = true
    · have hwg := hup hau
      simp [hau, hwg, hmode, hrm]
    · simp [hau, hmode, hrm]
  have hcl : (r.cleanup_nft_on_exit && decide (r.cfg.mode = "protect")) = false := by
    simp [hmode]
  have htd : teardown env r ((remove_nft_rules s).1) =
      (none, { (remove_nft_rules s).1 with statePresent := false },
       (if r.auto_down_vpn_on_exit then [Event.wgDownCall] else [])
         ++ [Event.stateRemoveCall]) := by
    unfold teardown
    simp [hcl]
  have hrun : RouteGuardRunner.run env r s =
      (.ok 0, { (remove_nft_rules s).1 with statePresent := false },
        ((if r.auto_up_vpn then [Event.wgUpCall] else []) ++ (remove_nft_rules s).2)
          ++ ((if r.auto_down_vpn_on_exit then [Event.wgDownCall] else [])
            ++ [Event.stateRemoveCall])) := by
    unfold RouteGuardRunner.run
    simp only [hb, htd]
  rw [hrun]
  refine ⟨rfl, ?_, ?_, ?_, remove_nft_no_table s, rfl⟩ <;>
    by_cases hau : r.auto_up_vpn = true <;>
      by_cases hdn : r.auto_down_vpn_on_exit = true <;>
        simp [hau, hdn, remove_nft_trace]

def offRunner : RouteGuardRunner := { cfg := { mode := "off", vpn_iface := "wg0" } }

theorem C7_off_mode_witness :
    (RouteGuardRunner.run quietEnv offRunner sysApplied).1 = .ok 0 ∧
    Event.nftApplyCall ∉ (RouteGuardRunner.run quietEnv offRunner sysApplied).2.2 ∧
    Event.stateWriteCall ∉ (RouteGuardRunner.run quietEnv offRunner sysApplied).2.2 ∧
    Event.nftRemoveCall ∈ (RouteGuardRunner.run quietEnv offRunner sysApplied).2.2 ∧
    routeguard_table_exists (RouteGuardRunner.run quietEnv offRunner sysApplied).2.1 = false ∧
    (RouteGuardRunner.run quietEnv offRunner sysApplied).2.1.statePresent = false :=
  C7_off_mode quietEnv offRunner sysApplied rfl (fun _ => rfl)

/-- C8: in every monitor-loop iteration that passes the self-heal step,
the runner logs one alert line for exactly those alert strings of the
current scan result that are not in the previous result set (the `warned`
argument), and continues with `warned` replaced by the current result
set; consequently an alert present in consecutive scans is not re-logged
on the second of them, and an alert absent from one scan and present in
the next is logged again. -/
theorem C8_warned_set_replaced (env : RunEnv) (r : RouteGuardRunner) (fuel i : Nat)
    (warned : List String) (s s1 : Sys) (tr1 : List Event)
    (hheal : healStep env r.cfg.mode i s = (.ok (), s1, tr1)) :
    (monitorLoop env r (fuel + 1) i warned s).2.2 =
      tr1 ++ ((scanCycle env r.cfg.vpn_iface i).filter
          (fun m => !(warned.contains m))).map Event.alert
        ++ (monitorLoop env r fuel (i + 1) (scanCycle env r.cfg.vpn_iface i) s1).2.2 ∧
    (∀ m : String,
      m ∈ (scanCycle env r.cfg.vpn_iface i).filter (fun m => !(warned.contains m)) ↔
        (m ∈ scanCycle env r.cfg.vpn_iface i ∧ m ∉ warned)) ∧
    (∀ m : String, m ∈ scanCycle env r.cfg.vpn_iface i →
      m ∉ (scanCycle env r.cfg.vpn_iface (i + 1)).filter
        (fun x => !((scanCycle env r.cfg.vpn_iface i).contains x))) ∧
    (∀ m : String, m ∉ scanCycle env r.cfg.vpn_iface i →
      m ∈ scanCycle env r.cfg.vpn_iface (i + 1) →
      m ∈ (scanCycle env r.cfg.vpn_iface (i + 1)).filter
        (fun x => !((scanCycle env r.cfg.vpn_iface i).contains x))) := by
  refine ⟨?_, ?_, ?_, ?_⟩
  · rcases hrec : monitorLoop env r fuel (i + 1) (scanCycle env r.cfg.vpn_iface i) s1
      with ⟨res2, s2, tr2⟩
    simp [monitorLoop, hheal, hrec, List.append_assoc]
  · intro m
    simp [List.mem_filter, List.elem_iff]
  · intro m hm
    simp [List.mem_filter, List.elem_iff, hm]
  · intro m hm1 hm2
    simp [List.mem_filter, List.elem_iff, hm1, hm2]

def monitorRunner : RouteGuardRunner := { cfg := { mode := "monitor", vpn_iface := "wg0" } }

def idleSys : Sys := { nftAvail := true, tablePresent := false, statePresent := true }

theorem C8_warned_set_replaced_witness :
    (monitorLoop quietEnv monitorRunner 1 0 [] idleSys).2.2 =
      [] ++ ((scanCycle quietEnv monitorRunner.cfg.vpn_iface 0).filter
          (fun m => !(([] : List String).contains m))).map Event.alert
        ++ (monitorLoop quietEnv monitorRunner 0 1
            (scanCycle quietEnv monitorRunner.cfg.vpn_iface 0) idleSys).2.2 ∧
    (∀ m : String,
      m ∈ (scanCycle quietEnv monitorRunner.cfg.vpn_iface 0).filter
          (fun m => !(([] : List String).contains m)) ↔
        (m ∈ scanCycle quietEnv monitorRunner.cfg.vpn_iface 0 ∧ m ∉ ([] : List String))) ∧
    (∀ m : String, m ∈ scanCycle quietEnv monitorRunner.cfg.vpn_iface 0 →
      m ∉ (scanCycle quietEnv monitorRunner.cfg.vpn_iface 1).filter
        (fun x => !((scanCycle quietEnv monitorRunner.cfg.vpn_iface 0).contains x))) ∧
    (∀ m : String, m ∉ scanCycle quietEnv monitorRunner.cfg.vpn_iface 0 →
      m ∈ scanCycle quietEnv monitorRunner.cfg.vpn_iface 1 →
      m ∈ (scanCycle quietEnv monitorRunner.cfg.vpn_iface 1).filter
        (fun x => !((scanCycle quietEnv monitorRunner.cfg.vpn_iface 0).contains x))) :=
  C8_warned_set_replaced quietEnv monitorRunner 0 0 [] idleSys idleSys [] rfl

/-! Support for the endpoint-construction claim. -/

theorem build_config_cases (env : ResolveEnv) (peers : List (Option String))
    (mode iface : String) (lan dhcp : Bool) (poll : Nat)
    (h : ∀ p ∈ peers, peerOk env p = true) :
    build_generated_config_from_wg env peers mode iface lan dhcp poll =
      (if (firstDedup (peers.flatMap (peerKeys env))).map keyRule = [] then
        .error "No Peer Endpoint found in WireGuard config."
      else .ok { mode := mode, vpn_iface := iface, poll_interval_sec := max 1 poll,
                 allow_lan := lan, allow_dhcp := dhcp,
                 vpn_endpoints :=
                   some ((firstDedup (peers.flatMap (peerKeys env))).map keyRule) }) := by
  have hloop := buildEpsLoop_spec env peers [] [] h
  rw [List.nil_append] at hloop
  unfold build_generated_config_from_wg
  rw [hloop]
  simp only [firstDedup, List.isEmpty_iff]

/-- C3: under a resolver for which every peer's endpoint parses and
resolves, construction succeeds exactly when the candidate key stream is
non-empty (otherwise it fails with the no-endpoint ConfigError), and the
resulting endpoint list carries one rule per resolved address with
protocol `udp`, deduplicated by `(ip, port, proto)` keeping the first
occurrence in insertion order (it equals the first-occurrence
deduplication of the per-peer candidate stream), with no duplicate keys,
and with between 1 and (total resolved addresses) entries. -/
theorem C3_endpoint_construction (env : ResolveEnv) (peers : List (Option String))
    (mode iface : String) (lan dhcp : Bool) (poll : Nat)
    (h : ∀ p ∈ peers, peerOk env p = true) :
    (exOk (build_generated_config_from_wg env peers mode iface lan dhcp poll) = true ↔
      peers.flatMap (peerKeys env) ≠ []) ∧
    (∀ cfg, build_generated_config_from_wg env peers mode iface lan dhcp poll = .ok cfg →
      ∃ eps, cfg.vpn_endpoints = some eps ∧
        eps.map epKey = firstDedup (peers.flatMap (peerKeys env)) ∧
        (∀ e ∈ eps, e.proto = "udp") ∧
        (eps.map epKey).Nodup ∧
        eps ≠ [] ∧
        1 ≤ eps.length ∧ eps.length ≤ (peers.flatMap (peerKeys env)).length) := by
  have hbuild := build_config_cases env peers mode iface lan dhcp poll h
  have hkeys : ((firstDedup (peers.flatMap (peerKeys env))).map keyRule).map epKey =
      firstDedup (peers.flatMap (peerKeys env)) := by
    simp [List.map_map, Function.comp_def, epKey_keyRule]
  constructor
  · rw [hbuild]
    by_cases hs : peers.flatMap (peerKeys env) = []
    · simp [hs, firstDedup, firstDedupFrom, exOk]
    · have hne : firstDedup (peers.flatMap (peerKeys env)) ≠ [] :=
        fun hc => hs (firstDedup_eq_nil_iff.mp hc)
      simp [exOk, hs, List.map_eq_nil_iff, hne]
  · intro cfg hcfg
    rw [hbuild] at hcfg
    by_cases hs : peers.flatMap (peerKeys env) = []
    · rw [if_pos (by simp [hs, firstDedup, firstDedupFrom])] at hcfg
      exact absurd hcfg (by simp)
    · have hne : (firstDedup (peers.flatMap (peerKeys env))).map keyRule ≠ [] := by
        rw [Ne, List.map_eq_nil_iff]
        exact fun hc => hs (firstDedup_eq_nil_iff.mp hc)
      rw [if_neg hne] at hcfg
      have hc := Except.ok.inj hcfg
      subst hc
      refine ⟨(firstDedup (peers.flatMap (peerKeys env))).map keyRule, rfl, hkeys, ?_, ?_, hne, ?_, ?_⟩
      · intro e he
        simp only [List.mem_map] at he
        obtain ⟨k, hk, rfl⟩ := he
        have hkmem : k ∈ peers.flatMap (peerKeys env) := (mem_firstDedupFrom.mp hk).1
        obtain ⟨p, hp, hkp⟩ := List.mem_flatMap.mp hkmem
        exact peerKeys_proto env p k hkp
      · rw [hkeys]; exact firstDedupFrom_nodup [] _
      · exact Nat.one_le_iff_ne_zero.mpr (fun hz => hne (List.eq_nil_of_length_eq_zero hz))
      · simpa using firstDedupFrom_length_le [] (peers.flatMap (peerKeys env))

/-- Concrete resolver and peers for the construction claim: one literal
endpoint and one peer without an `Endpoint` key. -/
def wEnv : ResolveEnv :=
  { isLiteral := fun h => h = "203.0.113.5", dns := fun _ => none }

def wPeers : List (Option String) := [some "203.0.113.5:51820", none]

theorem C3_endpoint_construction_witness :
    (exOk (build_generated_config_from_wg wEnv wPeers "protect" "wg0" true true 5) = true ↔
      wPeers.flatMap (peerKeys wEnv) ≠ []) ∧
    (∀ cfg, build_generated_config_from_wg wEnv wPeers "protect" "wg0" true true 5 = .ok cfg →
      ∃ eps, cfg.vpn_endpoints = some eps ∧
        eps.map epKey = firstDedup (wPeers.flatMap (peerKeys wEnv)) ∧
        (∀ e ∈ eps, e.proto = "udp") ∧
        (eps.map epKey).Nodup ∧
        eps ≠ [] ∧
        1 ≤ eps.length ∧ eps.length ≤ (wPeers.flatMap (peerKeys wEnv)).length) :=
  C3_endpoint_construction wEnv wPeers "protect" "wg0" true true 5 (by decide)
